import Mathlib

/-!
Verification of the NEMO Tool Display message-processing core
(`src/main.cpp`), shallowly embedded in Lean 4.

The embedded functions mirror the source:
 - `processMQTTMessage` (main.cpp:364-457): JSON parse step, status-topic
   field extraction, overall-topic branch;
 - `mqttCallback` (main.cpp:332-361): the 512-byte buffer guard;
 - `updateStatusIndicator` (main.cpp:521-533);
 - `capitalizeToolName` (main.cpp:460-487);
 - configuration constants from `config.h` / top of main.cpp.

The display snapshot (`DisplayState`) collects exactly the LVGL label
texts and colors that `processMQTTMessage` can mutate, initialized as
`create_simple_ui` (main.cpp:196-273) sets them.  JSON parsing itself is
the external ArduinoJson collaborator; a parsed document is modelled as
an association list of key/value pairs, and a failed parse as `none`.
-/

namespace NemoDisplay

/-- Configuration constant `TARGET_TOOL_NAME` (config.h:34). -/
def TARGET_TOOL_NAME : String := "woollam"

/-- Status topic `mqtt_topic_status` (main.cpp:23,74). -/
def mqtt_topic_status : String := "nemo/esp32/" ++ TARGET_TOOL_NAME ++ "/status"

/-- Broadcast topic `mqtt_topic_overall` (main.cpp:24). -/
def mqtt_topic_overall : String := "nemo/esp32/overall"

/-- A JSON scalar value as probed by the ArduinoJson calls in main.cpp. -/
inductive JVal where
  | jstr : String → JVal
  | jbool : Bool → JVal
  | jnum : Int → JVal
  | jnull : JVal
  deriving DecidableEq, Repr

/-- A successfully parsed JSON document: key/value pairs. -/
abbrev JsonDoc := List (String × JVal)

/-- Field lookup, as `doc["k"]` in ArduinoJson. -/
def getField (doc : JsonDoc) (k : String) : Option JVal :=
  (doc.find? (fun p => p.fst == k)).map Prod.snd

/-- Models `doc["k"].is<const char*>()`: key present with a string value. -/
def isStr (doc : JsonDoc) (k : String) : Bool :=
  match getField doc k with
  | some (JVal.jstr _) => true
  | _ => false

/-- Models `doc["k"].as<const char*>()` under the `is<const char*>()` guard. -/
def asStr (doc : JsonDoc) (k : String) : String :=
  match getField doc k with
  | some (JVal.jstr s) => s
  | _ => ""

/-- Models `doc["k"].as<bool>()`: booleans as-is, nonzero numbers true,
missing/null/string false. -/
def asBool (doc : JsonDoc) (k : String) : Bool :=
  match getField doc k with
  | some (JVal.jbool b) => b
  | some (JVal.jnum n) => decide (n ≠ 0)
  | _ => false

/-- The tool-status display snapshot: every piece of LVGL state that
`processMQTTMessage` can mutate (label texts, text colors, and the
status-indicator background color). -/
structure DisplayState where
  user_value : String
  user_value_color : Nat
  time_value : String
  time_value_color : Nat
  time_label : String
  user_label : String
  status_indicator_color : Nat
  deriving DecidableEq, Repr

/-- The snapshot as `create_simple_ui` (main.cpp:196-273) initializes it:
"--", "--:--", "Enabled/Disabled Since", "User", black text, red indicator. -/
def initialDisplayState : DisplayState :=
  { user_value := "--"
  , user_value_color := 0x000000
  , time_value := "--:--"
  , time_value_color := 0x000000
  , time_label := "Enabled/Disabled Since"
  , user_label := "User"
  , status_indicator_color := 0xFF0000 }

/-- `updateStatusIndicator` (main.cpp:521-533): green when enabled, red
when disabled. -/
def updateStatusIndicator (isEnabled : Bool) (st : DisplayState) : DisplayState :=
  if isEnabled then { st with status_indicator_color := 0x00FF00 }
  else { st with status_indicator_color := 0xFF0000 }

/-- The status-topic branch of `processMQTTMessage` (main.cpp:376-450):
extract `user_name`, then `timestamp`, then `event_type` (with its label
and indicator updates).  The source also reads `doc["time_label"]`
(main.cpp:395) and `doc["in_use"]` (main.cpp:409) into locals that are
never used afterwards; those dead reads are kept as unused bindings. -/
def applyStatusMessage (doc : JsonDoc) (st : DisplayState) : DisplayState :=
  let st1 :=
    if isStr doc "user_name" then
      { st with user_value := asStr doc "user_name", user_value_color := 0x000000 }
    else st
  let st2 :=
    if isStr doc "timestamp" then
      let _timeLabel := asStr doc "time_label"
      { st1 with time_value := asStr doc "timestamp", time_value_color := 0x000000 }
    else st1
  if isStr doc "event_type" then
    let eventType := asStr doc "event_type"
    let _inUse := asBool doc "in_use"
    let timeLabelText :=
      if eventType = "enabled" ∨ eventType = "idle" then "Enabled Since"
      else if eventType = "disabled" then "Disabled Since"
      else "Change Time"
    let userLabelText :=
      if eventType = "enabled" ∨ eventType = "idle" then "User"
      else if eventType = "disabled" then "Last User"
      else "User"
    let isToolEnabled := eventType = "enabled" ∨ eventType = "idle"
    updateStatusIndicator (decide isToolEnabled)
      { st2 with time_label := timeLabelText, user_label := userLabelText }
  else st2

/-- Observable outcome of `processMQTTMessage`: either the JSON-parse
failure path (main.cpp:369-373, logged and returned early) or normal
completion. -/
inductive ProcOutcome where
  | parseError : ProcOutcome
  | ok : ProcOutcome
  deriving DecidableEq, Repr

/-- `processMQTTMessage` (main.cpp:364-457).  The ArduinoJson parse result
is passed in (`none` when `deserializeJson` fails).  On parse failure the
function returns at once; otherwise the status-topic branch runs when the
topic matches, and the overall-topic branch (main.cpp:453-456) only logs,
mutating nothing. -/
def processMQTTMessage (topic : String) (parsed : Option JsonDoc)
    (st : DisplayState) : ProcOutcome × DisplayState :=
  match parsed with
  | none => (ProcOutcome.parseError, st)
  | some doc =>
    let st1 := if topic = mqtt_topic_status then applyStatusMessage doc st else st
    (ProcOutcome.ok, st1)

/-- `mqttCallback` (main.cpp:332-361): messages of 512 bytes or more are
dropped before the payload is copied or processed (`sizeof(message)` is
512); shorter payloads are parsed and passed to `processMQTTMessage`.
The result's first component is `none` when the guard dropped the
message. -/
def mqttCallback (parse : List Char → Option JsonDoc) (topic : String)
    (payload : List Char) (st : DisplayState) : Option ProcOutcome × DisplayState :=
  if 512 ≤ payload.length then (none, st)
  else
    let r := processMQTTMessage topic (parse payload) st
    (some r.1, r.2)

/-- An event-style payload, as a parsed document: an `event_type` string
together with a boolean `in_use`. -/
def eventDoc (e : String) (b : Bool) : JsonDoc :=
  [("event_type", JVal.jstr e), ("in_use", JVal.jbool b)]

/-- Separator characters that `capitalizeToolName` replaces by spaces
(main.cpp:471). -/
def isSep (c : Char) : Bool := c = '_' ∨ c = '-'

/-- ASCII lowercase test, the comparisons at main.cpp:474. -/
def isLowerAZ (c : Char) : Bool := 'a' ≤ c ∧ c ≤ 'z'

/-- ASCII uppercase test, the comparisons at main.cpp:477. -/
def isUpperAZ (c : Char) : Bool := 'A' ≤ c ∧ c ≤ 'Z'

/-- Uppercase conversion by subtracting 32 (main.cpp:475). -/
def toUpperAscii (c : Char) : Char := Char.ofNat (c.toNat - 32)

/-- The character loop of `capitalizeToolName` (main.cpp:466-484), carrying
the `capitalizeNext` flag.  Note every non-separator character clears the
flag, the alphabetic ones and the others alike. -/
def capLoop : List Char → Bool → List Char
  | [], _ => []
  | c :: rest, capNext =>
    if isSep c then ' ' :: capLoop rest true
    else if capNext && isLowerAZ c then toUpperAscii c :: capLoop rest false
    else if capNext && isUpperAZ c then c :: capLoop rest false
    else c :: capLoop rest false

/-- `capitalizeToolName` (main.cpp:460-487); `none` models a NULL
`const char*` argument. -/
def capitalizeToolName : Option String → String
  | none => "Unknown Tool"
  | some s => if s.length = 0 then "Unknown Tool" else String.mk (capLoop s.data true)

/-- ASCII alphabetic test, used only to formalize claim C10's wording. -/
def isAlphaAZ (c : Char) : Bool := isLowerAZ c || isUpperAZ c

/-- Uppercasing as claim C10 describes it: only lowercase letters change. -/
def claimToUpper (c : Char) : Char := if isLowerAZ c then toUpperAscii c else c

/-- The character loop as claim C10 words it: the first ALPHABETIC character
of the string and of each segment after a separator is uppercased, so a
leading digit leaves the capitalize flag armed.  This is the claim-side
definition, written from the claim for comparison with `capLoop`. -/
def claimCapLoop : List Char → Bool → List Char
  | [], _ => []
  | c :: rest, capNext =>
    if isSep c then ' ' :: claimCapLoop rest true
    else if capNext && isAlphaAZ c then claimToUpper c :: claimCapLoop rest false
    else c :: claimCapLoop rest capNext

/-- `capitalizeToolName` as claim C10 describes it, for comparison with the
source-derived `capitalizeToolName`. -/
def claimCapitalizeToolName : Option String → String
  | none => "Unknown Tool"
  | some s => if s.length = 0 then "Unknown Tool" else String.mk (claimCapLoop s.data true)

/-- The per-position character rule actually implemented by the source loop:
separators become spaces, and a character at a segment start is uppercased
only when it is itself a lowercase letter. -/
def amendedCapChar (segStart : Bool) (c : Char) : Char :=
  if isSep c then ' '
  else if segStart && isLowerAZ c then toUpperAscii c
  else c

/-! Helper lemmas shared by the claim theorems. -/

theorem isStr_of_none {doc : JsonDoc} {k : String} (h : getField doc k = none) :
    isStr doc k = false := by
  simp [isStr, h]

theorem capLoop_cons (c : Char) (rest : List Char) (b : Bool) :
    capLoop (c :: rest) b = amendedCapChar b c :: capLoop rest (isSep c) := by
  cases hs : isSep c <;> cases hl : isLowerAZ c <;> cases hu : isUpperAZ c <;> cases b <;>
    simp [capLoop, amendedCapChar, hs, hl, hu]

theorem capLoop_length : ∀ (l : List Char) (b : Bool), (capLoop l b).length = l.length
  | [], _ => rfl
  | c :: rest, b => by
    rw [capLoop_cons]
    simp [capLoop_length rest]

theorem capLoop_getD : ∀ (l : List Char) (b : Bool) (i : Nat), i < l.length →
    (capLoop l b).getD i 'a' =
      amendedCapChar (if i = 0 then b else isSep (l.getD (i - 1) 'a')) (l.getD i 'a')
  | [], _, i, h => absurd h (by simp)
  | c :: rest, b, 0, _ => by
    rw [capLoop_cons]
    simp
  | c :: rest, b, Nat.succ j, h => by
    rw [capLoop_cons]
    simp only [List.getD_cons_succ]
    rw [capLoop_getD rest (isSep c) j (by simpa using h)]
    cases j with
    | zero => simp
    | succ k => simp

/-! Claim theorems. -/

/-- C1: merge non-destructiveness.  For every snapshot and every parsed
message on the configured tool's status topic, a field the message omits
(user name, timestamp, event type) keeps exactly the value it had before
the message was processed: the user-value label and its color when
`user_name` is absent, the time-value label and its color when `timestamp`
is absent, and the time label, user label and status indicator when
`event_type` is absent. -/
theorem absent_fields_preserved (doc : JsonDoc) (st : DisplayState) :
    (getField doc "user_name" = none →
      (processMQTTMessage mqtt_topic_status (some doc) st).2.user_value = st.user_value ∧
      (processMQTTMessage mqtt_topic_status (some doc) st).2.user_value_color
        = st.user_value_color) ∧
    (getField doc "timestamp" = none →
      (processMQTTMessage mqtt_topic_status (some doc) st).2.time_value = st.time_value ∧
      (processMQTTMessage mqtt_topic_status (some doc) st).2.time_value_color
        = st.time_value_color) ∧
    (getField doc "event_type" = none →
      (processMQTTMessage mqtt_topic_status (some doc) st).2.time_label = st.time_label ∧
      (processMQTTMessage mqtt_topic_status (some doc) st).2.user_label = st.user_label ∧
      (processMQTTMessage mqtt_topic_status (some doc) st).2.status_indicator_color
        = st.status_indicator_color) := by
  refine ⟨fun h => ?_, fun h => ?_, fun h => ?_⟩ <;>
    simp only [processMQTTMessage, applyStatusMessage, updateStatusIndicator,
      if_pos rfl, isStr_of_none h] <;>
    split_ifs <;> simp_all

/-- Witness for C1: the payload carrying only a `status` key omits all three
fields, and each stays at its initial value. -/
theorem absent_fields_preserved_witness :
    (processMQTTMessage mqtt_topic_status (some [("status", JVal.jstr "active")])
        initialDisplayState).2.user_value = initialDisplayState.user_value ∧
    (processMQTTMessage mqtt_topic_status (some [("status", JVal.jstr "active")])
        initialDisplayState).2.time_value = initialDisplayState.time_value ∧
    (processMQTTMessage mqtt_topic_status (some [("status", JVal.jstr "active")])
        initialDisplayState).2.time_label = initialDisplayState.time_label ∧
    (processMQTTMessage mqtt_topic_status (some [("status", JVal.jstr "active")])
        initialDisplayState).2.status_indicator_color
      = initialDisplayState.status_indicator_color := by
  have h := absent_fields_preserved [("status", JVal.jstr "active")] initialDisplayState
  exact ⟨(h.1 (by decide)).1, (h.2.1 (by decide)).1, (h.2.2 (by decide)).1,
    (h.2.2 (by decide)).2.2⟩

/-- C2 counterexample: the two payloads of the claim do NOT decode to
identical snapshots.  On the status topic, `{"status":"active"}` leaves the
initial snapshot unchanged (the code never reads a `status` key), while
`{"event_type":"enabled","in_use":false}` changes it, so the decoded
snapshots differ. -/
theorem status_event_snapshots_differ :
    (processMQTTMessage mqtt_topic_status (some [("status", JVal.jstr "active")])
        initialDisplayState).2
      ≠ (processMQTTMessage mqtt_topic_status (some (eventDoc "enabled" false))
        initialDisplayState).2 := by
  decide

/-- C2 (amended): the direct-status vocabulary is not recognized.
`{"status":"active"}` on the status topic parses without error but leaves
the snapshot unchanged, while `{"event_type":"enabled","in_use":false}` is
recognized and sets the enabled indication (green indicator, time label
"Enabled Since", user label "User"); the two payloads do not decode to the
same snapshot. -/
theorem status_vocabulary_unrecognized (st : DisplayState) :
    processMQTTMessage mqtt_topic_status (some [("status", JVal.jstr "active")]) st
      = (ProcOutcome.ok, st) ∧
    (processMQTTMessage mqtt_topic_status (some (eventDoc "enabled" false)) st).2
      = { st with time_label := "Enabled Since", user_label := "User",
                  status_indicator_color := 0x00FF00 } :=
  ⟨rfl, rfl⟩

/-- C3 counterexample: the value of `in_use` does NOT affect the decoded
result.  `{"event_type":"enabled","in_use":true}` and
`{"event_type":"enabled","in_use":false}` process to identical outcomes and
snapshots (the source reads `in_use` into a local it never uses). -/
theorem in_use_value_ignored :
    processMQTTMessage mqtt_topic_status (some (eventDoc "enabled" true)) initialDisplayState
      = processMQTTMessage mqtt_topic_status (some (eventDoc "enabled" false))
        initialDisplayState := by
  decide

/-- C3 (amended): event-style mapping as the source implements it.
`enabled` and `idle` both set the enabled indication (green indicator,
"Enabled Since", "User"); `disabled` sets the disabled indication (red
indicator, "Disabled Since", "Last User"); and the boolean `in_use`,
although read, never affects the result: for every event string, changing
`in_use` leaves the whole processing outcome unchanged. -/
theorem event_type_mapping (st : DisplayState) (b : Bool) :
    (processMQTTMessage mqtt_topic_status (some (eventDoc "enabled" b)) st).2
      = { st with time_label := "Enabled Since", user_label := "User",
                  status_indicator_color := 0x00FF00 } ∧
    (processMQTTMessage mqtt_topic_status (some (eventDoc "idle" b)) st).2
      = { st with time_label := "Enabled Since", user_label := "User",
                  status_indicator_color := 0x00FF00 } ∧
    (processMQTTMessage mqtt_topic_status (some (eventDoc "disabled" b)) st).2
      = { st with time_label := "Disabled Since", user_label := "Last User",
                  status_indicator_color := 0xFF0000 } ∧
    ∀ (e : String) (c : Bool),
      processMQTTMessage mqtt_topic_status (some (eventDoc e b)) st
        = processMQTTMessage mqtt_topic_status (some (eventDoc e c)) st :=
  ⟨rfl, rfl, rfl, fun _ _ => rfl⟩

/-- C4: malformed-payload atomicity.  Whenever the JSON parse fails (parse
result `none`), processing returns the parse-error outcome and the snapshot
is exactly what it was before the message arrived, on every topic: no field
is mutated, decoding is all-or-nothing per message. -/
theorem malformed_payload_leaves_state (topic : String) (st : DisplayState) :
    processMQTTMessage topic none st = (ProcOutcome.parseError, st) := rfl

/-- C5: topic filtering.  A parsed message whose topic is neither the
configured tool's status topic (`nemo/esp32/woollam/status`) nor the
broadcast topic (`nemo/esp32/overall`) is dropped without touching the
snapshot: processing completes with the snapshot completely unchanged. -/
theorem topic_mismatch_leaves_state (topic : String) (doc : JsonDoc) (st : DisplayState)
    (h1 : topic ≠ mqtt_topic_status) (_h2 : topic ≠ mqtt_topic_overall) :
    processMQTTMessage topic (some doc) st = (ProcOutcome.ok, st) := by
  simp [processMQTTMessage, h1]

/-- Witness for C5: a message on `nemo/esp32/other-tool/status` is dropped
and the initial snapshot is unchanged. -/
theorem topic_mismatch_leaves_state_witness :
    processMQTTMessage "nemo/esp32/other-tool/status" (some (eventDoc "enabled" false))
        initialDisplayState
      = (ProcOutcome.ok, initialDisplayState) :=
  topic_mismatch_leaves_state "nemo/esp32/other-tool/status" (eventDoc "enabled" false)
    initialDisplayState (by decide) (by decide)

/-- C6 counterexample: the broadcast topic is NOT free of errors for every
payload.  A payload that fails to parse as JSON, delivered on
`nemo/esp32/overall`, takes the parse-error path (the JSON parse happens
before any topic check), so processing does produce an error outcome —
though the snapshot is still unchanged. -/
theorem overall_malformed_payload_errors :
    processMQTTMessage mqtt_topic_overall none initialDisplayState
      = (ProcOutcome.parseError, initialDisplayState) ∧
    ProcOutcome.parseError ≠ ProcOutcome.ok := by
  decide

/-- C6 (amended): every payload on the broadcast topic that parses as JSON
is accepted without error and mutates nothing; a payload that fails to
parse is rejected by the JSON-parse step shared by all topics, also with
no mutation. -/
theorem overall_topic_inert (doc : JsonDoc) (st : DisplayState) :
    processMQTTMessage mqtt_topic_overall (some doc) st = (ProcOutcome.ok, st) ∧
    processMQTTMessage mqtt_topic_overall none st = (ProcOutcome.parseError, st) := by
  constructor
  · simp [processMQTTMessage, mqtt_topic_overall, mqtt_topic_status, TARGET_TOOL_NAME]
  · rfl

/-- C9: oversized-message guard.  A delivered payload of 512 bytes or more
is dropped by the callback before any processing: the result carries no
processing outcome and the snapshot is unchanged.  A payload strictly
shorter than 512 bytes is passed through to `processMQTTMessage`. -/
theorem oversized_message_guard (parse : List Char → Option JsonDoc) (topic : String)
    (payload : List Char) (st : DisplayState) :
    (512 ≤ payload.length → mqttCallback parse topic payload st = (none, st)) ∧
    (payload.length < 512 → mqttCallback parse topic payload st =
      (some (processMQTTMessage topic (parse payload) st).1,
       (processMQTTMessage topic (parse payload) st).2)) := by
  constructor
  · intro h
    simp [mqttCallback, h]
  · intro h
    simp [mqttCallback, Nat.not_le.mpr h]

/-- Witness for C9: a 512-character payload is dropped with the snapshot
unchanged, and a 1-character payload reaches the decoder. -/
theorem oversized_message_guard_witness :
    mqttCallback (fun _ => none) mqtt_topic_status (List.replicate 512 'a')
        initialDisplayState
      = (none, initialDisplayState) ∧
    mqttCallback (fun _ => none) mqtt_topic_status ['n'] initialDisplayState
      = (some ProcOutcome.parseError, initialDisplayState) := by
  constructor
  · exact (oversized_message_guard (fun _ => none) mqtt_topic_status
      (List.replicate 512 'a') initialDisplayState).1
      (le_of_eq (List.length_replicate 512 'a').symm)
  · exact ((oversized_message_guard (fun _ => none) mqtt_topic_status ['n']
      initialDisplayState).2 (by decide)).trans rfl

/-- C10 counterexample: the claim's "first alphabetic character of each
segment is uppercased" is false for the source.  On `"4pt_probe"` the code
returns `"4pt Probe"` (the leading digit clears the capitalize flag, so the
`p` stays lowercase), while the claim's own rule yields `"4Pt Probe"`. -/
theorem capitalize_first_alpha_counterexample :
    capitalizeToolName (some "4pt_probe") = "4pt Probe" ∧
    claimCapitalizeToolName (some "4pt_probe") = "4Pt Probe" ∧
    ("4pt Probe" : String) ≠ "4Pt Probe" := by
  decide

/-- C10 (amended): `capitalizeToolName` returns "Unknown Tool" for a null
or empty input; for every other input it returns a string of equal length
in which each character is given by a per-position rule: a `_` or `-`
becomes a space, and the character at the start of the string or directly
after such a separator is uppercased only when it is itself a lowercase
letter; every other character passes through unchanged. -/
theorem capitalizeToolName_characterization :
    capitalizeToolName none = "Unknown Tool" ∧
    capitalizeToolName (some "") = "Unknown Tool" ∧
    ∀ (s : String), s ≠ "" →
      (capitalizeToolName (some s)).data.length = s.data.length ∧
      ∀ i, i < s.data.length →
        (capitalizeToolName (some s)).data.getD i 'a' =
          amendedCapChar (if i = 0 then true else isSep (s.data.getD (i - 1) 'a'))
            (s.data.getD i 'a') := by
  refine ⟨rfl, rfl, fun s hs => ?_⟩
  have hlen : ¬s.length = 0 := by
    intro h0
    exact hs (String.ext (List.length_eq_zero.mp h0))
  have hcap : capitalizeToolName (some s) = String.mk (capLoop s.data true) := by
    simp [capitalizeToolName, hlen]
  rw [hcap]
  exact ⟨capLoop_length s.data true, fun i hi => capLoop_getD s.data true i hi⟩

/-- Witness for C10: on the nonempty input "woollam" the length is
preserved and position 0 follows the per-position rule. -/
theorem capitalizeToolName_characterization_witness :
    (capitalizeToolName (some "woollam")).data.length
      = ("woollam" : String).data.length ∧
    (capitalizeToolName (some "woollam")).data.getD 0 'a' =
      amendedCapChar (if (0 : Nat) = 0 then true
        else isSep (("woollam" : String).data.getD (0 - 1) 'a'))
        (("woollam" : String).data.getD 0 'a') := by
  have h := capitalizeToolName_characterization.2.2 "woollam" (by decide)
  exact ⟨h.1, h.2 0 (by decide)⟩

end NemoDisplay
